import Mathlib

/-!
Shallow embedding of the AK-racing vehicle physics core
(src/physics/CarController.ts — two concatenated class versions —
src/physics/MotorcycleController.ts, src/App.tsx, src/types.ts).

Numbers are modelled by `ℚ` (exact arithmetic standing in for JS doubles).
`Math.sin` / `Math.cos` appear only through explicit function parameters
`jsSin jsCos : ℚ → ℚ`, so every definition stays computable; theorems
quantify over them, and concrete witnesses instantiate them with functions
that agree with real sine/cosine at the (finitely many) evaluated points.
The `Math.random()` sample drawn inside the second car variant's update is
made an explicit argument `rand : ℚ`.
-/

/-- `PhysicsConfig` from src/types.ts, extended with the `rollFactor` and
`pitchFactor` fields that the car variants of App.tsx actually supply and
the car controllers read. -/
structure PhysicsConfig where
  maxSpeed : ℚ
  acceleration : ℚ
  engineBraking : ℚ
  manualBraking : ℚ
  steeringSensitivity : ℚ
  rollFactor : ℚ
  pitchFactor : ℚ
  leanFactor : ℚ
  angularDamping : ℚ
  tractionAsphalt : ℚ
  suspensionStiffness : ℚ
  suspensionDamping : ℚ
  deriving Repr

/-- Per-frame input record `{throttle, brake, steer}`. -/
structure Inputs where
  throttle : ℚ
  brake : ℚ
  steer : ℚ
  deriving Repr

/-- Mutable state of a `CarController` instance (both car variants):
`position`, `velocity`, `heading`, `bodyRoll`, `bodyPitch`,
`verticalOffset`, `verticalVelocity`, `tractionModifier`. -/
@[ext]
structure CarState where
  posX : ℚ
  posY : ℚ
  posZ : ℚ
  velocity : ℚ
  heading : ℚ
  bodyRoll : ℚ
  bodyPitch : ℚ
  verticalOffset : ℚ
  verticalVelocity : ℚ
  tractionModifier : ℚ
  deriving Repr

/-- Mutable state of a `MotorcycleController` instance. -/
@[ext]
structure MotoState where
  posX : ℚ
  posY : ℚ
  posZ : ℚ
  velocity : ℚ
  heading : ℚ
  leanAngle : ℚ
  verticalOffset : ℚ
  verticalVelocity : ℚ
  tractionModifier : ℚ
  stabilityModifier : ℚ
  deriving Repr

/-- JS `Math.round` (round half toward positive infinity). -/
def jsRound (x : ℚ) : ℤ := ⌊x + 1 / 2⌋

/-- JS truncation toward zero, used by the JS `%` remainder operator. -/
def jsTrunc (x : ℚ) : ℤ := if 0 ≤ x then ⌊x⌋ else -⌊-x⌋

/-- JS `%` remainder operator on numbers (sign follows the dividend). -/
def jsRem (a b : ℚ) : ℚ := a - b * (jsTrunc (a / b) : ℚ)

/-! ## Car controller, first version (CarController.ts lines 4–90)

The `update` body is translated stage by stage; the named stage
definitions below are the source's local constants, factored out so that
theorems can speak about the exact intermediate quantities. -/

/-- Lines 23–27: `netAccel = throttle * acceleration * tractionModifier
- (brake * manualBraking + (velocity > 0 ? engineBraking : 0))`. -/
def carNetAccel (cfg : PhysicsConfig) (inputs : Inputs) (s : CarState) : ℚ :=
  inputs.throttle * (cfg.acceleration * s.tractionModifier) -
    (inputs.brake * cfg.manualBraking + (if 0 < s.velocity then cfg.engineBraking else 0))

/-- Lines 28–32: velocity after integrating `netAccel` and subtracting the
quadratic drag `0.003 * v * v * dt`. -/
def carVelAfterDrag (cfg : PhysicsConfig) (dt : ℚ) (inputs : Inputs) (s : CarState) : ℚ :=
  let v1 := s.velocity + carNetAccel cfg inputs s * dt
  v1 - (3 / 1000 * v1 * v1) * dt

/-- Line 36: `normalizedSpeed = velocity / maxSpeed`, taken after drag but
before steering scrub. -/
def carNormalizedSpeed (cfg : PhysicsConfig) (dt : ℚ) (inputs : Inputs) (s : CarState) : ℚ :=
  carVelAfterDrag cfg dt inputs s / cfg.maxSpeed

/-- Lines 37–41: steering scrub `v -= v * (|steer| * normalizedSpeed * 0.45) * dt`
followed by the two sequential clamps `if (v < 0) v = 0` and
`if (v > maxSpeed) v = maxSpeed`. -/
def carVelClamped (cfg : PhysicsConfig) (dt : ℚ) (inputs : Inputs) (s : CarState) : ℚ :=
  let v2 := carVelAfterDrag cfg dt inputs s
  let scrubFactor := |inputs.steer| * carNormalizedSpeed cfg dt inputs s * (45 / 100)
  let v3 := v2 - v2 * scrubFactor * dt
  let v4 := if v3 < 0 then 0 else v3
  if cfg.maxSpeed < v4 then cfg.maxSpeed else v4

/-- Line 45: `steerLimit = (1.0 - normalizedSpeed * 0.7) * tractionModifier`. -/
def carSteerLimit (cfg : PhysicsConfig) (dt : ℚ) (inputs : Inputs) (s : CarState) : ℚ :=
  (1 - carNormalizedSpeed cfg dt inputs s * (7 / 10)) * s.tractionModifier

/-- Line 46: `effectiveSteer = steer * steerLimit`. -/
def carEffectiveSteer (cfg : PhysicsConfig) (dt : ℚ) (inputs : Inputs) (s : CarState) : ℚ :=
  inputs.steer * carSteerLimit cfg dt inputs s

/-- Line 53: `targetRoll = -effectiveSteer * normalizedSpeed * rollFactor`. -/
def carTargetRoll (effectiveSteer normalizedSpeed rollFactor : ℚ) : ℚ :=
  -effectiveSteer * normalizedSpeed * rollFactor

/-- `CarController.update` (first version, lines 21–72). -/
def carUpdate (jsSin jsCos : ℚ → ℚ) (cfg : PhysicsConfig) (dt : ℚ)
    (inputs : Inputs) (s : CarState) : CarState :=
  let netAccel := carNetAccel cfg inputs s
  let normalizedSpeed := carNormalizedSpeed cfg dt inputs s
  let v5 := carVelClamped cfg dt inputs s
  let effectiveSteer := carEffectiveSteer cfg dt inputs s
  let turnRate := effectiveSteer * (28 / 10) * cfg.steeringSensitivity
  let heading2 := s.heading + turnRate * min v5 20 * dt
  let targetRoll := carTargetRoll effectiveSteer normalizedSpeed cfg.rollFactor
  let bodyRoll2 := s.bodyRoll + (targetRoll - s.bodyRoll) * cfg.angularDamping * dt
  let targetPitch := netAccel / cfg.acceleration * cfg.pitchFactor
  let bodyPitch2 := s.bodyPitch + (targetPitch - s.bodyPitch) * cfg.angularDamping * dt
  let posX2 := s.posX + jsSin heading2 * v5 * dt
  let posZ2 := s.posZ + jsCos heading2 * v5 * dt
  let groundLevel := jsSin (posX2 * (1 / 2)) * (2 / 100) + jsCos (posZ2 * (1 / 2)) * (2 / 100)
  let error := groundLevel - s.verticalOffset
  let springForce := error * cfg.suspensionStiffness
  let dampingForce := -s.verticalVelocity * cfg.suspensionDamping
  let vv2 := s.verticalVelocity + (springForce + dampingForce) * dt
  let vo2 := s.verticalOffset + vv2 * dt
  { s with
    velocity := v5
    heading := heading2
    bodyRoll := bodyRoll2
    bodyPitch := bodyPitch2
    posX := posX2
    posZ := posZ2
    verticalVelocity := vv2
    verticalOffset := vo2
    posY := 3 / 10 + vo2 }

/-! ## Car controller, second version (CarController.ts lines 95–204)

This variant adds low-end torque, a stronger brake multiplier, different
drag/scrub coefficients, an Ackermann-style turn rate, and — crucially — a
`Math.random()` road-noise sample inside the suspension stage.  That
sample is the explicit argument `rand`. -/

/-- Lines 114–136 of the second variant: the velocity pipeline up to and
including the two clamps (everything before the steering stage). -/
def carV2VelClamped (cfg : PhysicsConfig) (dt : ℚ) (inputs : Inputs) (s : CarState) : ℚ :=
  let powerScale : ℚ := if s.velocity < 20 then 12 / 10 else 1
  let effectiveAccel := cfg.acceleration * s.tractionModifier * powerScale
  let targetAccel := inputs.throttle * effectiveAccel
  let brakingPower := cfg.manualBraking * (12 / 10)
  let braking := inputs.brake * brakingPower + (if 0 < s.velocity then cfg.engineBraking else 0)
  let netAccel := targetAccel - braking
  let v1 := s.velocity + netAccel * dt
  let drag := 25 / 10000 * v1 * v1
  let v2 := v1 - drag * dt
  let normalizedSpeed := v2 / cfg.maxSpeed
  let lateralG := |inputs.steer| * normalizedSpeed
  let scrubIntensity : ℚ := 55 / 100
  let v3 := v2 - v2 * lateralG * scrubIntensity * dt
  let v4 := if v3 < 0 then 0 else v3
  if cfg.maxSpeed < v4 then cfg.maxSpeed else v4

/-- `CarController.update` (second version, lines 112–170).  `rand` is the
value returned by the `Math.random()` call at line 163. -/
def carV2Update (jsSin jsCos : ℚ → ℚ) (rand : ℚ) (cfg : PhysicsConfig) (dt : ℚ)
    (inputs : Inputs) (s : CarState) : CarState :=
  let powerScale : ℚ := if s.velocity < 20 then 12 / 10 else 1
  let effectiveAccel := cfg.acceleration * s.tractionModifier * powerScale
  let targetAccel := inputs.throttle * effectiveAccel
  let brakingPower := cfg.manualBraking * (12 / 10)
  let braking := inputs.brake * brakingPower + (if 0 < s.velocity then cfg.engineBraking else 0)
  let netAccel := targetAccel - braking
  let v1 := s.velocity + netAccel * dt
  let drag := 25 / 10000 * v1 * v1
  let v2 := v1 - drag * dt
  let normalizedSpeed := v2 / cfg.maxSpeed
  let v5 := carV2VelClamped cfg dt inputs s
  let steerLock := 85 / 100 - normalizedSpeed * (65 / 100)
  let effectiveSteer := inputs.steer * steerLock * cfg.steeringSensitivity
  let turnSensitivity : ℚ := 32 / 10
  let turningCircle := min v5 35
  let heading2 := s.heading + effectiveSteer * turnSensitivity * (turningCircle / 20) * dt
  let targetRoll := -effectiveSteer * normalizedSpeed * cfg.rollFactor * (18 / 10)
  let bodyRoll2 := s.bodyRoll + (targetRoll - s.bodyRoll) * cfg.angularDamping * dt
  let accelerationForce := netAccel / cfg.acceleration
  let targetPitch := accelerationForce * cfg.pitchFactor * (15 / 10)
  let bodyPitch2 := s.bodyPitch + (targetPitch - s.bodyPitch) * cfg.angularDamping * dt
  let posX2 := s.posX + jsSin heading2 * v5 * dt
  let posZ2 := s.posZ + jsCos heading2 * v5 * dt
  let roadNoise := (rand - 1 / 2) * (5 / 1000) * normalizedSpeed
  let groundLevel := jsSin (posX2 * (8 / 10)) * (1 / 100) + roadNoise
  let springError := groundLevel - s.verticalOffset
  let vv2 := s.verticalVelocity +
    (springError * cfg.suspensionStiffness - s.verticalVelocity * cfg.suspensionDamping) * dt
  let vo2 := s.verticalOffset + vv2 * dt
  { s with
    velocity := v5
    heading := heading2
    bodyRoll := bodyRoll2
    bodyPitch := bodyPitch2
    posX := posX2
    posZ := posZ2
    verticalVelocity := vv2
    verticalOffset := vo2
    posY := 3 / 10 + vo2 }

/-! ## Motorcycle controller (MotorcycleController.ts lines 23–76) -/

/-- Lines 25–29: the motorcycle's net acceleration. -/
def motoNetAccel (cfg : PhysicsConfig) (inputs : Inputs) (s : MotoState) : ℚ :=
  inputs.throttle * (cfg.acceleration * s.tractionModifier) -
    (inputs.brake * cfg.manualBraking + (if 0 < s.velocity then cfg.engineBraking else 0))

/-- Lines 30–37: velocity after acceleration, quadratic drag
`0.005 * v * v`, and the two sequential clamps.  Unlike the car, the
motorcycle clamps before computing the normalized speed. -/
def motoVelClamped (cfg : PhysicsConfig) (dt : ℚ) (inputs : Inputs) (s : MotoState) : ℚ :=
  let v1 := s.velocity + motoNetAccel cfg inputs s * dt
  let v2 := v1 - (5 / 1000 * v1 * v1) * dt
  let v3 := if v2 < 0 then 0 else v2
  if cfg.maxSpeed < v3 then cfg.maxSpeed else v3

/-- Line 40: `normalizedSpeed = velocity / maxSpeed` (post-clamp velocity). -/
def motoNormalizedSpeed (cfg : PhysicsConfig) (dt : ℚ) (inputs : Inputs) (s : MotoState) : ℚ :=
  motoVelClamped cfg dt inputs s / cfg.maxSpeed

/-- Lines 44–45: `effectiveSteer = steer * (1.5 - normalizedSpeed * 1.1) * tractionModifier`. -/
def motoEffectiveSteer (cfg : PhysicsConfig) (dt : ℚ) (inputs : Inputs) (s : MotoState) : ℚ :=
  inputs.steer * ((3 / 2 - motoNormalizedSpeed cfg dt inputs s * (11 / 10)) * s.tractionModifier)

/-- Line 58: `targetLean = effectiveSteer * normalizedSpeed * leanFactor * 1.5`. -/
def motoLeanTarget (effectiveSteer normalizedSpeed leanFactor : ℚ) : ℚ :=
  effectiveSteer * normalizedSpeed * leanFactor * (3 / 2)

/-- `MotorcycleController.update` (lines 23–76). -/
def motoUpdate (jsSin jsCos : ℚ → ℚ) (cfg : PhysicsConfig) (dt : ℚ)
    (inputs : Inputs) (s : MotoState) : MotoState :=
  let v3 := motoVelClamped cfg dt inputs s
  let normalizedSpeed := motoNormalizedSpeed cfg dt inputs s
  let effectiveSteer := motoEffectiveSteer cfg dt inputs s
  let agilityMultiplier := 5 / 2 - normalizedSpeed * (9 / 5)
  let turnRate := effectiveSteer * agilityMultiplier * cfg.steeringSensitivity
  let turnVelocity := max v3 2
  let heading2 := s.heading + turnRate * turnVelocity * dt
  let targetLean2 := motoLeanTarget effectiveSteer normalizedSpeed cfg.leanFactor
  let effectiveDamping := cfg.angularDamping * s.stabilityModifier
  let lean2 := s.leanAngle + (targetLean2 - s.leanAngle) * effectiveDamping * dt
  let posX2 := s.posX + jsSin heading2 * v3 * dt
  let posZ2 := s.posZ + jsCos heading2 * v3 * dt
  let groundLevel := jsSin (posX2 * (1 / 2)) * (5 / 100) + jsCos (posZ2 * (1 / 2)) * (5 / 100)
  let error := groundLevel - s.verticalOffset
  let springForce := error * cfg.suspensionStiffness
  let dampingForce := -s.verticalVelocity * cfg.suspensionDamping
  let vv2 := s.verticalVelocity + (springForce + dampingForce) * dt
  let vo2 := s.verticalOffset + vv2 * dt
  { s with
    velocity := v3
    heading := heading2
    leanAngle := lean2
    posX := posX2
    posZ := posZ2
    verticalVelocity := vv2
    verticalOffset := vo2
    posY := 1 / 2 + vo2 }

/-! ## Telemetry

`getTelemetry` is a method on a controller; its shallow embedding returns
the telemetry record together with the post-call state, so that the
absence of mutation is a provable statement rather than a convention. -/

/-- Extras passed to the car variants' `getTelemetry`. -/
structure CarExtra where
  score : ℚ
  lap : ℚ
  position : ℚ
  level : ℚ
  deriving Repr

/-- Extras passed to the motorcycle's `getTelemetry` (no `level`). -/
structure MotoExtra where
  score : ℚ
  lap : ℚ
  position : ℚ
  deriving Repr

/-- Telemetry record returned by the first car variant (lines 75–88). -/
structure CarTelemetry where
  speed : ℤ
  bodyRoll : ℤ
  bodyPitch : ℤ
  rpm : ℚ
  gear : ℤ
  throttle : ℚ
  brake : ℚ
  steering : ℚ
  score : ℚ
  lap : ℚ
  position : ℚ
  level : ℚ
  deriving Repr

/-- Telemetry record returned by the second car variant (lines 189–202). -/
structure CarV2Telemetry where
  speed : ℤ
  bodyRoll : ℤ
  bodyPitch : ℤ
  rpm : ℤ
  gear : ℕ
  throttle : ℚ
  brake : ℚ
  steering : ℚ
  score : ℚ
  lap : ℚ
  position : ℚ
  level : ℚ
  deriving Repr

/-- Telemetry record returned by the motorcycle (lines 79–90). -/
structure MotoTelemetry where
  speed : ℤ
  leanAngle : ℤ
  rpm : ℚ
  gear : ℤ
  throttle : ℚ
  brake : ℚ
  steering : ℚ
  score : ℚ
  lap : ℚ
  position : ℚ
  deriving Repr

/-- `CarController.getTelemetry` (first version, lines 74–89), as a
result/post-state pair.  The method body contains no assignment, so the
post-state is the receiver unchanged. -/
def carGetTelemetry (inputs : Inputs) (extra : CarExtra) (s : CarState) :
    CarTelemetry × CarState :=
  ({ speed := jsRound (s.velocity * (36 / 10))
     bodyRoll := jsRound (s.bodyRoll * (5729 / 100))
     bodyPitch := jsRound (s.bodyPitch * (5729 / 100))
     rpm := min 8500 (1000 + jsRem (s.velocity * 150) 7500)
     gear := ⌊s.velocity / 18⌋ + 1
     throttle := inputs.throttle
     brake := inputs.brake
     steering := inputs.steer
     score := extra.score
     lap := extra.lap
     position := extra.position
     level := extra.level }, s)

/-- Line 176: the fixed gear threshold table of the second car variant. -/
def gearThresholds : List ℚ := [0, 40, 80, 130, 190, 260]

/-- Lines 177–180: the sequential gear loop
`for (i = 1; i < 6; i++) if (kph > thresholds[i]) gear = i + 1`. -/
def carV2Gear (kph : ℚ) : ℕ :=
  (List.range 5).foldl (fun gear i => if gearThresholds.getD (i + 1) 0 < kph then i + 2 else gear) 1

/-- `CarController.getTelemetry` (second version, lines 172–203).
`thresholds[gear] || 400` is modelled through the JS falsy rule: a missing
index or a zero entry both yield 400. -/
def carV2GetTelemetry (inputs : Inputs) (extra : CarExtra) (s : CarState) :
    CarV2Telemetry × CarState :=
  let kph := s.velocity * (36 / 10)
  let gear := carV2Gear kph
  let currentGearMin := gearThresholds.getD (gear - 1) 0
  let lookup := gearThresholds.getD gear 0
  let currentGearMax := if lookup = 0 then 400 else lookup
  let gearRange := currentGearMax - currentGearMin
  let rpmBase := (kph - currentGearMin) / gearRange * 5000
  let rpm := min 9000 (2000 + rpmBase + inputs.throttle * 500)
  ({ speed := jsRound kph
     bodyRoll := jsRound (s.bodyRoll * (5729 / 100))
     bodyPitch := jsRound (s.bodyPitch * (5729 / 100))
     rpm := jsRound rpm
     gear := gear
     throttle := inputs.throttle
     brake := inputs.brake
     steering := inputs.steer
     score := extra.score
     lap := extra.lap
     position := extra.position
     level := extra.level }, s)

/-- `MotorcycleController.getTelemetry` (lines 78–91). -/
def motoGetTelemetry (inputs : Inputs) (extra : MotoExtra) (s : MotoState) :
    MotoTelemetry × MotoState :=
  ({ speed := jsRound (s.velocity * (36 / 10))
     leanAngle := jsRound (s.leanAngle * (5729 / 100))
     rpm := min 9000 (2000 + jsRem (s.velocity * 120) 7000)
     gear := ⌊s.velocity / 15⌋ + 1
     throttle := inputs.throttle
     brake := inputs.brake
     steering := inputs.steer
     score := extra.score
     lap := extra.lap
     position := extra.position }, s)

/-! ## Default configurations (App.tsx) -/

/-- `DEFAULT_CONFIG` of the car-variant App.tsx (lines 7–19); that object
carries no `leanFactor` key, modelled here as 0 (the car controllers never
read it). -/
def defaultCarConfig : PhysicsConfig :=
  { maxSpeed := 160
    acceleration := 55
    engineBraking := 5
    manualBraking := 90
    steeringSensitivity := 11 / 10
    rollFactor := 8 / 100
    pitchFactor := 15 / 100
    leanFactor := 0
    angularDamping := 10
    tractionAsphalt := 1
    suspensionStiffness := 80
    suspensionDamping := 20 }

/-- `DEFAULT_CONFIG` of the motorcycle-variant App.tsx (lines 168–179);
that object carries no `rollFactor`/`pitchFactor` keys, modelled as 0. -/
def defaultMotoConfig : PhysicsConfig :=
  { maxSpeed := 95
    acceleration := 22
    engineBraking := 3
    manualBraking := 45
    steeringSensitivity := 19 / 20
    rollFactor := 0
    pitchFactor := 0
    leanFactor := 11 / 20
    angularDamping := 8
    tractionAsphalt := 1
    suspensionStiffness := 65
    suspensionDamping := 7 }

/-- The default-zeroed state a `CarController` is constructed with. -/
def carInitState : CarState :=
  { posX := 0, posY := 3 / 10, posZ := 0, velocity := 0, heading := 0, bodyRoll := 0,
    bodyPitch := 0, verticalOffset := 0, verticalVelocity := 0, tractionModifier := 1 }

/-- The default-zeroed state a `MotorcycleController` is constructed with. -/
def motoInitState : MotoState :=
  { posX := 0, posY := 1 / 2, posZ := 0, velocity := 0, heading := 0, leanAngle := 0,
    verticalOffset := 0, verticalVelocity := 0, tractionModifier := 1, stabilityModifier := 1 }

/-! ## App-level tuning replacement (App.tsx `handleAiTune`)

The response handling is
`if (response.text) setConfig(JSON.parse(response.text.trim()));`
inside `try { ... } catch (e) { console.error(e); }`: a successfully
parsed JSON value is adopted as the new config without any field check; an
absent text or a `JSON.parse` exception leaves the previous config in
place. -/

/-- A JSON value, the result type of `JSON.parse`. -/
inductive Json where
  | null : Json
  | bool (b : Bool) : Json
  | num (q : ℚ) : Json
  | str (s : String) : Json
  | arr (xs : List Json) : Json
  | obj (fields : List (String × Json)) : Json
  deriving Repr

/-- The config-replacement decision of `handleAiTune` (App.tsx line 66):
`parsed = some j` models a non-empty `response.text` whose `JSON.parse`
returned `j`; `parsed = none` models an absent text or a thrown parse
error caught by the surrounding `catch`. -/
def handleAiTuneApply (current : Json) (parsed : Option Json) : Json :=
  match parsed with
  | some j => j
  | none => current

/-- Modelled from the spec: the Parameter-Set schema validation that §7
requires ("a replacement Parameter Set that fails schema validation
(missing/non-numeric field) must be rejected"); no such check exists in
src/.  A value passes when it is an object carrying a numeric
entry for every required field name. -/
def isValidPhysicsConfig (required : List String) (j : Json) : Bool :=
  match j with
  | Json.obj fields =>
      required.all fun name =>
        fields.any fun f => f.1 = name && match f.2 with | Json.num _ => true | _ => false
  | _ => false

/-- The field names of the car Parameter-Set schema (App.tsx lines 50–60). -/
def carConfigFields : List String :=
  ["maxSpeed", "acceleration", "engineBraking", "manualBraking", "steeringSensitivity",
   "rollFactor", "pitchFactor", "angularDamping", "tractionAsphalt",
   "suspensionStiffness", "suspensionDamping"]

/-- The Json rendering of the car `DEFAULT_CONFIG` held by the App before
a tuning replacement. -/
def defaultCarConfigJson : Json :=
  Json.obj
    [("maxSpeed", Json.num 160), ("acceleration", Json.num 55),
     ("engineBraking", Json.num 5), ("manualBraking", Json.num 90),
     ("steeringSensitivity", Json.num (11 / 10)), ("rollFactor", Json.num (8 / 100)),
     ("pitchFactor", Json.num (15 / 100)), ("angularDamping", Json.num 10),
     ("tractionAsphalt", Json.num 1), ("suspensionStiffness", Json.num 80),
     ("suspensionDamping", Json.num 20)]

/-- The spec's reject-scenario payload `{maxSpeed: "fast"}`. -/
def malformedTuneResponse : Json := Json.obj [("maxSpeed", Json.str "fast")]

/-! ## Claim theorems -/

/-- C4: `getTelemetry` mutates no field of the controller state, and two
successive calls with the same state, inputs and extras return identical
telemetry, for all three controller variants. -/
theorem getTelemetry_pure_and_repeatable :
    ∀ (inputs : Inputs) (ce : CarExtra) (me : MotoExtra) (sc : CarState) (sm : MotoState),
      (carGetTelemetry inputs ce sc).2 = sc ∧
      (carGetTelemetry inputs ce (carGetTelemetry inputs ce sc).2).1 =
        (carGetTelemetry inputs ce sc).1 ∧
      (carV2GetTelemetry inputs ce sc).2 = sc ∧
      (carV2GetTelemetry inputs ce (carV2GetTelemetry inputs ce sc).2).1 =
        (carV2GetTelemetry inputs ce sc).1 ∧
      (motoGetTelemetry inputs me sm).2 = sm ∧
      (motoGetTelemetry inputs me (motoGetTelemetry inputs me sm).2).1 =
        (motoGetTelemetry inputs me sm).1 :=
  fun _ _ _ _ _ => ⟨rfl, rfl, rfl, rfl, rfl, rfl⟩

/-- C2 counterexample: `handleAiTune` adopts the spec's reject-scenario
payload `{maxSpeed: "fast"}` — a value failing the Parameter-Set schema —
instead of retaining the previous config; no validation error exists. -/
theorem tune_adopts_malformed_replacement :
    handleAiTuneApply defaultCarConfigJson (some malformedTuneResponse) = malformedTuneResponse ∧
    isValidPhysicsConfig carConfigFields malformedTuneResponse = false ∧
    handleAiTuneApply defaultCarConfigJson (some malformedTuneResponse) ≠ defaultCarConfigJson := by
  refine ⟨rfl, by decide, ?_⟩
  intro h
  simp only [handleAiTuneApply, malformedTuneResponse, defaultCarConfigJson,
    Json.obj.injEq] at h
  exact absurd h (by simp)

/-- C2 amended: the only rejection the App performs is for an absent
response text or a `JSON.parse` exception (the `catch` path), where the
previous config is retained; every successfully parsed JSON value —
schema-valid or not — is adopted unconditionally. -/
theorem tune_retains_config_only_on_parse_failure :
    ∀ (current j : Json),
      handleAiTuneApply current (some j) = j ∧ handleAiTuneApply current none = current :=
  fun _ _ => ⟨rfl, rfl⟩

/-- C3 counterexample: the second car variant's `update` reads
`Math.random()` in its road-noise term, so two calls from the identical
state, config, `dt` and inputs (but distinct random samples 0 and 1)
produce different resulting states. -/
theorem carV2_update_depends_on_random_sample :
    (carV2Update (fun _ => 0) (fun _ => 0) 0 defaultCarConfig (1 / 60) ⟨0, 0, 0⟩
        { carInitState with velocity := 100 }).verticalVelocity ≠
      (carV2Update (fun _ => 0) (fun _ => 0) 1 defaultCarConfig (1 / 60) ⟨0, 0, 0⟩
        { carInitState with velocity := 100 }).verticalVelocity := by
  norm_num [carV2Update, carV2VelClamped, defaultCarConfig, carInitState, min_def]

/-- C3 amended: the first car variant's and the motorcycle's `update` are
pure functions of (state, config, dt, inputs) — determinism is definitional
in this embedding — while the second car variant's random sample reaches
only the suspension fields: `velocity`, `heading`, `bodyRoll`, `bodyPitch`,
`posX`, `posZ` and `tractionModifier` are independent of it. -/
theorem carV2_random_confined_to_suspension :
    ∀ (jsSin jsCos : ℚ → ℚ) (r1 r2 : ℚ) (cfg : PhysicsConfig) (dt : ℚ)
      (i : Inputs) (s : CarState),
      (carV2Update jsSin jsCos r1 cfg dt i s).velocity =
        (carV2Update jsSin jsCos r2 cfg dt i s).velocity ∧
      (carV2Update jsSin jsCos r1 cfg dt i s).heading =
        (carV2Update jsSin jsCos r2 cfg dt i s).heading ∧
      (carV2Update jsSin jsCos r1 cfg dt i s).bodyRoll =
        (carV2Update jsSin jsCos r2 cfg dt i s).bodyRoll ∧
      (carV2Update jsSin jsCos r1 cfg dt i s).bodyPitch =
        (carV2Update jsSin jsCos r2 cfg dt i s).bodyPitch ∧
      (carV2Update jsSin jsCos r1 cfg dt i s).posX =
        (carV2Update jsSin jsCos r2 cfg dt i s).posX ∧
      (carV2Update jsSin jsCos r1 cfg dt i s).posZ =
        (carV2Update jsSin jsCos r2 cfg dt i s).posZ ∧
      (carV2Update jsSin jsCos r1 cfg dt i s).tractionModifier =
        (carV2Update jsSin jsCos r2 cfg dt i s).tractionModifier :=
  fun _ _ _ _ _ _ _ _ => ⟨rfl, rfl, rfl, rfl, rfl, rfl, rfl⟩

/-- Modelled from the spec: "gear determined by a fixed speed-threshold
table (monotonic breakpoints, e.g. {0,40,80,130,190,260})" with gear =
number of thresholds strictly exceeded by the speed in km/h, minimum 1. -/
def specGearFromTable (kph : ℚ) : ℕ :=
  max 1 (gearThresholds.countP fun t => decide (t < kph))

/-- The unrolled gear loop agrees with the exceeded-threshold count. -/
theorem carV2Gear_eq_count (kph : ℚ) : carV2Gear kph = specGearFromTable kph := by
  have hr : List.range 5 = [0, 1, 2, 3, 4] := rfl
  simp only [carV2Gear, specGearFromTable, gearThresholds, hr, List.foldl, List.countP,
    List.countP.go, List.getD, List.get?, Option.getD_some, Bool.cond_decide, decide_eq_true_eq]
  split_ifs <;> first | rfl | omega | (exfalso; linarith)

/-- C8 counterexample: the first car variant's telemetry computes
`gear = floor(velocity / 18) + 1`; at velocity 12 (43.2 km/h) it reports
gear 1 while the threshold table of the claim gives gear 2. -/
theorem carV1_gear_differs_from_threshold_table :
    (carGetTelemetry ⟨0, 0, 0⟩ ⟨0, 0, 0, 0⟩ { carInitState with velocity := 12 }).1.gear = 1 ∧
    specGearFromTable (12 * (36 / 10)) = 2 := by
  constructor
  · norm_num [carGetTelemetry, carInitState]
  · norm_num [specGearFromTable, gearThresholds, List.countP, List.countP.go]

/-- The first car variant's clamped velocity lies in `[0, maxSpeed]`. -/
theorem carVelClamped_mem (cfg : PhysicsConfig) (dt : ℚ) (i : Inputs) (s : CarState)
    (h : 0 ≤ cfg.maxSpeed) :
    0 ≤ carVelClamped cfg dt i s ∧ carVelClamped cfg dt i s ≤ cfg.maxSpeed := by
  simp only [carVelClamped]
  split_ifs <;> constructor <;> linarith

/-- The second car variant's clamped velocity lies in `[0, maxSpeed]`. -/
theorem carV2VelClamped_mem (cfg : PhysicsConfig) (dt : ℚ) (i : Inputs) (s : CarState)
    (h : 0 ≤ cfg.maxSpeed) :
    0 ≤ carV2VelClamped cfg dt i s ∧ carV2VelClamped cfg dt i s ≤ cfg.maxSpeed := by
  simp only [carV2VelClamped]
  split_ifs <;> constructor <;> linarith

/-- The motorcycle's clamped velocity lies in `[0, maxSpeed]`. -/
theorem motoVelClamped_mem (cfg : PhysicsConfig) (dt : ℚ) (i : Inputs) (s : MotoState)
    (h : 0 ≤ cfg.maxSpeed) :
    0 ≤ motoVelClamped cfg dt i s ∧ motoVelClamped cfg dt i s ≤ cfg.maxSpeed := by
  simp only [motoVelClamped]
  split_ifs <;> constructor <;> linarith

/-- C1: for every controller variant, every starting state, every dt and
every inputs record, the velocity after `update` satisfies
`0 ≤ velocity ≤ maxSpeed` (under the Parameter-Set invariant
`maxSpeed > 0`). -/
theorem update_velocity_within_bounds :
    ∀ (jsSin jsCos : ℚ → ℚ) (rand : ℚ) (cfg : PhysicsConfig) (dt : ℚ) (i : Inputs)
      (sc : CarState) (sm : MotoState),
      0 < cfg.maxSpeed →
      (0 ≤ (carUpdate jsSin jsCos cfg dt i sc).velocity ∧
        (carUpdate jsSin jsCos cfg dt i sc).velocity ≤ cfg.maxSpeed) ∧
      (0 ≤ (carV2Update jsSin jsCos rand cfg dt i sc).velocity ∧
        (carV2Update jsSin jsCos rand cfg dt i sc).velocity ≤ cfg.maxSpeed) ∧
      (0 ≤ (motoUpdate jsSin jsCos cfg dt i sm).velocity ∧
        (motoUpdate jsSin jsCos cfg dt i sm).velocity ≤ cfg.maxSpeed) := by
  intro jsSin jsCos rand cfg dt i sc sm h
  have h1 : (carUpdate jsSin jsCos cfg dt i sc).velocity = carVelClamped cfg dt i sc := rfl
  have h2 : (carV2Update jsSin jsCos rand cfg dt i sc).velocity = carV2VelClamped cfg dt i sc :=
    rfl
  have h3 : (motoUpdate jsSin jsCos cfg dt i sm).velocity = motoVelClamped cfg dt i sm := rfl
  rw [h1, h2, h3]
  exact ⟨carVelClamped_mem cfg dt i sc h.le, carV2VelClamped_mem cfg dt i sc h.le,
    motoVelClamped_mem cfg dt i sm h.le⟩

/-- C1 witness: the bounds instantiated at the default car config, the
extreme inputs throttle=1, brake=1, steer=1, and the constructed states. -/
theorem update_velocity_within_bounds_witness :
    0 < defaultCarConfig.maxSpeed ∧
    ((0 ≤ (carUpdate (fun _ => 0) (fun _ => 1) defaultCarConfig (1 / 60) ⟨1, 1, 1⟩
        carInitState).velocity ∧
      (carUpdate (fun _ => 0) (fun _ => 1) defaultCarConfig (1 / 60) ⟨1, 1, 1⟩
        carInitState).velocity ≤ defaultCarConfig.maxSpeed) ∧
     (0 ≤ (carV2Update (fun _ => 0) (fun _ => 1) (1 / 2) defaultCarConfig (1 / 60) ⟨1, 1, 1⟩
        carInitState).velocity ∧
      (carV2Update (fun _ => 0) (fun _ => 1) (1 / 2) defaultCarConfig (1 / 60) ⟨1, 1, 1⟩
        carInitState).velocity ≤ defaultCarConfig.maxSpeed) ∧
     (0 ≤ (motoUpdate (fun _ => 0) (fun _ => 1) defaultCarConfig (1 / 60) ⟨1, 1, 1⟩
        motoInitState).velocity ∧
      (motoUpdate (fun _ => 0) (fun _ => 1) defaultCarConfig (1 / 60) ⟨1, 1, 1⟩
        motoInitState).velocity ≤ defaultCarConfig.maxSpeed)) :=
  ⟨by norm_num [defaultCarConfig],
    update_velocity_within_bounds (fun _ => 0) (fun _ => 1) (1 / 2) defaultCarConfig (1 / 60)
      ⟨1, 1, 1⟩ carInitState motoInitState (by norm_num [defaultCarConfig])⟩

/-- Negating the steer input does not change the first car variant's
velocity pipeline (the scrub term uses `|steer|`). -/
theorem carVelClamped_neg_steer (cfg : PhysicsConfig) (dt t b sv : ℚ) (s : CarState) :
    carVelClamped cfg dt ⟨t, b, -sv⟩ s = carVelClamped cfg dt ⟨t, b, sv⟩ s := by
  simp [carVelClamped, carVelAfterDrag, carNetAccel, carNormalizedSpeed, abs_neg]

/-- Negating the steer input negates the first car variant's effective
steer. -/
theorem carEffectiveSteer_neg_steer (cfg : PhysicsConfig) (dt t b sv : ℚ) (s : CarState) :
    carEffectiveSteer cfg dt ⟨t, b, -sv⟩ s = -carEffectiveSteer cfg dt ⟨t, b, sv⟩ s := by
  simp only [carEffectiveSteer, carSteerLimit]
  have hns : carNormalizedSpeed cfg dt ⟨t, b, -sv⟩ s = carNormalizedSpeed cfg dt ⟨t, b, sv⟩ s :=
    rfl
  rw [hns]
  ring

/-- Negating the steer input negates the motorcycle's effective steer. -/
theorem motoEffectiveSteer_neg_steer (cfg : PhysicsConfig) (dt t b sv : ℚ) (s : MotoState) :
    motoEffectiveSteer cfg dt ⟨t, b, -sv⟩ s = -motoEffectiveSteer cfg dt ⟨t, b, sv⟩ s := by
  simp only [motoEffectiveSteer]
  have hns : motoNormalizedSpeed cfg dt ⟨t, b, -sv⟩ s = motoNormalizedSpeed cfg dt ⟨t, b, sv⟩ s :=
    rfl
  rw [hns]
  ring

/-- C7: steering is sign-symmetric for the car and the motorcycle: from
the same state, steer=−s versus steer=+s (other inputs identical) yields
the identical resulting velocity, a sign-mirrored heading delta, and a
sign-mirrored roll/lean target. -/
theorem steering_sign_symmetry :
    ∀ (jsSin jsCos : ℚ → ℚ) (cfg : PhysicsConfig) (dt t b sv : ℚ)
      (sc : CarState) (sm : MotoState),
      0 < cfg.maxSpeed →
      ((carUpdate jsSin jsCos cfg dt ⟨t, b, -sv⟩ sc).velocity =
        (carUpdate jsSin jsCos cfg dt ⟨t, b, sv⟩ sc).velocity ∧
       (carUpdate jsSin jsCos cfg dt ⟨t, b, -sv⟩ sc).heading - sc.heading =
        -((carUpdate jsSin jsCos cfg dt ⟨t, b, sv⟩ sc).heading - sc.heading) ∧
       carTargetRoll (carEffectiveSteer cfg dt ⟨t, b, -sv⟩ sc)
          (carNormalizedSpeed cfg dt ⟨t, b, -sv⟩ sc) cfg.rollFactor =
        -carTargetRoll (carEffectiveSteer cfg dt ⟨t, b, sv⟩ sc)
          (carNormalizedSpeed cfg dt ⟨t, b, sv⟩ sc) cfg.rollFactor) ∧
      ((motoUpdate jsSin jsCos cfg dt ⟨t, b, -sv⟩ sm).velocity =
        (motoUpdate jsSin jsCos cfg dt ⟨t, b, sv⟩ sm).velocity ∧
       (motoUpdate jsSin jsCos cfg dt ⟨t, b, -sv⟩ sm).heading - sm.heading =
        -((motoUpdate jsSin jsCos cfg dt ⟨t, b, sv⟩ sm).heading - sm.heading) ∧
       motoLeanTarget (motoEffectiveSteer cfg dt ⟨t, b, -sv⟩ sm)
          (motoNormalizedSpeed cfg dt ⟨t, b, -sv⟩ sm) cfg.leanFactor =
        -motoLeanTarget (motoEffectiveSteer cfg dt ⟨t, b, sv⟩ sm)
          (motoNormalizedSpeed cfg dt ⟨t, b, sv⟩ sm) cfg.leanFactor) := by
  intro jsSin jsCos cfg dt t b sv sc sm _
  have hcv := carVelClamped_neg_steer cfg dt t b sv sc
  have hces := carEffectiveSteer_neg_steer cfg dt t b sv sc
  have hcns : carNormalizedSpeed cfg dt ⟨t, b, -sv⟩ sc = carNormalizedSpeed cfg dt ⟨t, b, sv⟩ sc :=
    rfl
  have hmv : motoVelClamped cfg dt ⟨t, b, -sv⟩ sm = motoVelClamped cfg dt ⟨t, b, sv⟩ sm := rfl
  have hmes := motoEffectiveSteer_neg_steer cfg dt t b sv sm
  have hmns : motoNormalizedSpeed cfg dt ⟨t, b, -sv⟩ sm =
      motoNormalizedSpeed cfg dt ⟨t, b, sv⟩ sm := rfl
  refine ⟨⟨?_, ?_, ?_⟩, ?_, ?_, ?_⟩
  · show carVelClamped cfg dt ⟨t, b, -sv⟩ sc = carVelClamped cfg dt ⟨t, b, sv⟩ sc
    exact hcv
  · show sc.heading + carEffectiveSteer cfg dt ⟨t, b, -sv⟩ sc * (28 / 10) *
        cfg.steeringSensitivity * min (carVelClamped cfg dt ⟨t, b, -sv⟩ sc) 20 * dt -
        sc.heading =
      -(sc.heading + carEffectiveSteer cfg dt ⟨t, b, sv⟩ sc * (28 / 10) *
        cfg.steeringSensitivity * min (carVelClamped cfg dt ⟨t, b, sv⟩ sc) 20 * dt - sc.heading)
    rw [hcv, hces]
    ring
  · rw [hces, hcns]
    simp only [carTargetRoll]
    ring
  · show motoVelClamped cfg dt ⟨t, b, -sv⟩ sm = motoVelClamped cfg dt ⟨t, b, sv⟩ sm
    exact hmv
  · show sm.heading + motoEffectiveSteer cfg dt ⟨t, b, -sv⟩ sm *
        (5 / 2 - motoNormalizedSpeed cfg dt ⟨t, b, -sv⟩ sm * (9 / 5)) *
        cfg.steeringSensitivity * max (motoVelClamped cfg dt ⟨t, b, -sv⟩ sm) 2 * dt -
        sm.heading =
      -(sm.heading + motoEffectiveSteer cfg dt ⟨t, b, sv⟩ sm *
        (5 / 2 - motoNormalizedSpeed cfg dt ⟨t, b, sv⟩ sm * (9 / 5)) *
        cfg.steeringSensitivity * max (motoVelClamped cfg dt ⟨t, b, sv⟩ sm) 2 * dt - sm.heading)
    rw [hmv, hmes, hmns]
    ring
  · rw [hmes, hmns]
    simp only [motoLeanTarget]
    ring

/-- C7 witness: sign symmetry instantiated at the default car config,
`dt = 1/60`, throttle 1, steer ±1, from the constructed states. -/
theorem steering_sign_symmetry_witness :
    0 < defaultCarConfig.maxSpeed ∧
    (((carUpdate (fun _ => 0) (fun _ => 1) defaultCarConfig (1 / 60) ⟨1, 0, -1⟩
        carInitState).velocity =
       (carUpdate (fun _ => 0) (fun _ => 1) defaultCarConfig (1 / 60) ⟨1, 0, 1⟩
        carInitState).velocity ∧
      (carUpdate (fun _ => 0) (fun _ => 1) defaultCarConfig (1 / 60) ⟨1, 0, -1⟩
        carInitState).heading - carInitState.heading =
       -((carUpdate (fun _ => 0) (fun _ => 1) defaultCarConfig (1 / 60) ⟨1, 0, 1⟩
        carInitState).heading - carInitState.heading) ∧
      carTargetRoll (carEffectiveSteer defaultCarConfig (1 / 60) ⟨1, 0, -1⟩ carInitState)
         (carNormalizedSpeed defaultCarConfig (1 / 60) ⟨1, 0, -1⟩ carInitState)
         defaultCarConfig.rollFactor =
       -carTargetRoll (carEffectiveSteer defaultCarConfig (1 / 60) ⟨1, 0, 1⟩ carInitState)
         (carNormalizedSpeed defaultCarConfig (1 / 60) ⟨1, 0, 1⟩ carInitState)
         defaultCarConfig.rollFactor) ∧
     ((motoUpdate (fun _ => 0) (fun _ => 1) defaultCarConfig (1 / 60) ⟨1, 0, -1⟩
        motoInitState).velocity =
       (motoUpdate (fun _ => 0) (fun _ => 1) defaultCarConfig (1 / 60) ⟨1, 0, 1⟩
        motoInitState).velocity ∧
      (motoUpdate (fun _ => 0) (fun _ => 1) defaultCarConfig (1 / 60) ⟨1, 0, -1⟩
        motoInitState).heading - motoInitState.heading =
       -((motoUpdate (fun _ => 0) (fun _ => 1) defaultCarConfig (1 / 60) ⟨1, 0, 1⟩
        motoInitState).heading - motoInitState.heading) ∧
      motoLeanTarget (motoEffectiveSteer defaultCarConfig (1 / 60) ⟨1, 0, -1⟩ motoInitState)
         (motoNormalizedSpeed defaultCarConfig (1 / 60) ⟨1, 0, -1⟩ motoInitState)
         defaultCarConfig.leanFactor =
       -motoLeanTarget (motoEffectiveSteer defaultCarConfig (1 / 60) ⟨1, 0, 1⟩ motoInitState)
         (motoNormalizedSpeed defaultCarConfig (1 / 60) ⟨1, 0, 1⟩ motoInitState)
         defaultCarConfig.leanFactor)) :=
  ⟨by norm_num [defaultCarConfig],
    steering_sign_symmetry (fun _ => 0) (fun _ => 1) defaultCarConfig (1 / 60) 1 0 1
      carInitState motoInitState (by norm_num [defaultCarConfig])⟩

/-- C9: at positive speed with a nonzero effective steer and positive roll
and lean factors, the car's roll target has the sign opposite to its
effective steer while the motorcycle's lean target has the same sign as
its effective steer. -/
theorem attitude_target_sign_conventions :
    ∀ (cfg : PhysicsConfig) (dt : ℚ) (ic im : Inputs) (sc : CarState) (sm : MotoState),
      0 < cfg.maxSpeed → 0 < cfg.rollFactor → 0 < cfg.leanFactor →
      0 < carVelAfterDrag cfg dt ic sc → carEffectiveSteer cfg dt ic sc ≠ 0 →
      0 < motoVelClamped cfg dt im sm → motoEffectiveSteer cfg dt im sm ≠ 0 →
      carTargetRoll (carEffectiveSteer cfg dt ic sc) (carNormalizedSpeed cfg dt ic sc)
          cfg.rollFactor * carEffectiveSteer cfg dt ic sc < 0 ∧
      0 < motoLeanTarget (motoEffectiveSteer cfg dt im sm) (motoNormalizedSpeed cfg dt im sm)
          cfg.leanFactor * motoEffectiveSteer cfg dt im sm := by
  intro cfg dt ic im sc sm hmax hrf hlf hcv hces hmv hmes
  constructor
  · have hns : 0 < carNormalizedSpeed cfg dt ic sc := div_pos hcv hmax
    have hsq : 0 < carEffectiveSteer cfg dt ic sc * carEffectiveSteer cfg dt ic sc :=
      mul_self_pos.mpr hces
    simp only [carTargetRoll]
    nlinarith [mul_pos (mul_pos hsq hns) hrf]
  · have hns : 0 < motoNormalizedSpeed cfg dt im sm := div_pos hmv hmax
    have hsq : 0 < motoEffectiveSteer cfg dt im sm * motoEffectiveSteer cfg dt im sm :=
      mul_self_pos.mpr hmes
    simp only [motoLeanTarget]
    nlinarith [mul_pos (mul_pos hsq hns) hlf]

/-- C9 witness: the sign facts instantiated at `dt = 0`, steer 1,
velocity 10, with a config carrying positive roll and lean factors. -/
theorem attitude_target_sign_conventions_witness :
    0 < ({ defaultCarConfig with leanFactor := 11 / 20 } : PhysicsConfig).maxSpeed ∧
    0 < ({ defaultCarConfig with leanFactor := 11 / 20 } : PhysicsConfig).rollFactor ∧
    0 < ({ defaultCarConfig with leanFactor := 11 / 20 } : PhysicsConfig).leanFactor ∧
    0 < carVelAfterDrag { defaultCarConfig with leanFactor := 11 / 20 } 0 ⟨0, 0, 1⟩
        { carInitState with velocity := 10 } ∧
    carEffectiveSteer { defaultCarConfig with leanFactor := 11 / 20 } 0 ⟨0, 0, 1⟩
        { carInitState with velocity := 10 } ≠ 0 ∧
    0 < motoVelClamped { defaultCarConfig with leanFactor := 11 / 20 } 0 ⟨0, 0, 1⟩
        { motoInitState with velocity := 10 } ∧
    motoEffectiveSteer { defaultCarConfig with leanFactor := 11 / 20 } 0 ⟨0, 0, 1⟩
        { motoInitState with velocity := 10 } ≠ 0 ∧
    (carTargetRoll
        (carEffectiveSteer { defaultCarConfig with leanFactor := 11 / 20 } 0 ⟨0, 0, 1⟩
          { carInitState with velocity := 10 })
        (carNormalizedSpeed { defaultCarConfig with leanFactor := 11 / 20 } 0 ⟨0, 0, 1⟩
          { carInitState with velocity := 10 })
        ({ defaultCarConfig with leanFactor := 11 / 20 } : PhysicsConfig).rollFactor *
      carEffectiveSteer { defaultCarConfig with leanFactor := 11 / 20 } 0 ⟨0, 0, 1⟩
          { carInitState with velocity := 10 } < 0 ∧
     0 < motoLeanTarget
        (motoEffectiveSteer { defaultCarConfig with leanFactor := 11 / 20 } 0 ⟨0, 0, 1⟩
          { motoInitState with velocity := 10 })
        (motoNormalizedSpeed { defaultCarConfig with leanFactor := 11 / 20 } 0 ⟨0, 0, 1⟩
          { motoInitState with velocity := 10 })
        ({ defaultCarConfig with leanFactor := 11 / 20 } : PhysicsConfig).leanFactor *
      motoEffectiveSteer { defaultCarConfig with leanFactor := 11 / 20 } 0 ⟨0, 0, 1⟩
          { motoInitState with velocity := 10 }) := by
  have hcv : (0:ℚ) < carVelAfterDrag { defaultCarConfig with leanFactor := 11 / 20 } 0 ⟨0, 0, 1⟩
      { carInitState with velocity := 10 } := by
    norm_num [carVelAfterDrag, carNetAccel, defaultCarConfig, carInitState]
  have hces : carEffectiveSteer { defaultCarConfig with leanFactor := 11 / 20 } 0 ⟨0, 0, 1⟩
      { carInitState with velocity := 10 } ≠ 0 := by
    norm_num [carEffectiveSteer, carSteerLimit, carNormalizedSpeed, carVelAfterDrag,
      carNetAccel, defaultCarConfig, carInitState]
  have hmv : (0:ℚ) < motoVelClamped { defaultCarConfig with leanFactor := 11 / 20 } 0 ⟨0, 0, 1⟩
      { motoInitState with velocity := 10 } := by
    norm_num [motoVelClamped, motoNetAccel, defaultCarConfig, motoInitState]
  have hmes : motoEffectiveSteer { defaultCarConfig with leanFactor := 11 / 20 } 0 ⟨0, 0, 1⟩
      { motoInitState with velocity := 10 } ≠ 0 := by
    norm_num [motoEffectiveSteer, motoNormalizedSpeed, motoVelClamped, motoNetAccel,
      defaultCarConfig, motoInitState]
  exact ⟨by norm_num [defaultCarConfig], by norm_num [defaultCarConfig],
    by norm_num [defaultCarConfig], hcv, hces, hmv, hmes,
    attitude_target_sign_conventions { defaultCarConfig with leanFactor := 11 / 20 } 0
      ⟨0, 0, 1⟩ ⟨0, 0, 1⟩ { carInitState with velocity := 10 } { motoInitState with velocity := 10 }
      (by norm_num [defaultCarConfig]) (by norm_num [defaultCarConfig])
      (by norm_num [defaultCarConfig]) hcv hces hmv hmes⟩

/-- With zero throttle and brake and velocity exactly 0, the first car
variant's velocity pipeline returns 0 (any steer input). -/
theorem carVelClamped_at_rest (cfg : PhysicsConfig) (dt st : ℚ) (s : CarState)
    (hmax : 0 < cfg.maxSpeed) (hv : s.velocity = 0) :
    carVelClamped cfg dt ⟨0, 0, st⟩ s = 0 := by
  simp only [carVelClamped, carVelAfterDrag, carNetAccel, carNormalizedSpeed, hv]
  norm_num
  intro h
  linarith

/-- With zero throttle and brake and velocity exactly 0, the motorcycle's
velocity pipeline returns 0 (any steer input). -/
theorem motoVelClamped_at_rest (cfg : PhysicsConfig) (dt st : ℚ) (s : MotoState)
    (hmax : 0 < cfg.maxSpeed) (hv : s.velocity = 0) :
    motoVelClamped cfg dt ⟨0, 0, st⟩ s = 0 := by
  simp only [motoVelClamped, motoNetAccel, hv]
  norm_num
  intro h
  linarith

/-- C10: at exactly zero forward velocity with a nonzero steer input (zero
throttle/brake), positive dt, steering sensitivity and traction, the
motorcycle's update still changes the heading (its turn velocity is
floored at 2.0) while the car's update leaves the heading exactly
unchanged (its turn term is multiplied by `min(velocity, 20) = 0`). -/
theorem zero_speed_turn_asymmetry :
    ∀ (jsSin jsCos : ℚ → ℚ) (cfg : PhysicsConfig) (dt st : ℚ)
      (sc : CarState) (sm : MotoState),
      0 < dt → 0 < cfg.steeringSensitivity → 0 < cfg.maxSpeed → st ≠ 0 →
      0 < sm.tractionModifier → sc.velocity = 0 → sm.velocity = 0 →
      (carUpdate jsSin jsCos cfg dt ⟨0, 0, st⟩ sc).heading = sc.heading ∧
      (motoUpdate jsSin jsCos cfg dt ⟨0, 0, st⟩ sm).heading ≠ sm.heading := by
  intro jsSin jsCos cfg dt st sc sm hdt hsens hmax hst htm hvc0 hvm0
  have hvc := carVelClamped_at_rest cfg dt st sc hmax hvc0
  have hmv := motoVelClamped_at_rest cfg dt st sm hmax hvm0
  have hns : motoNormalizedSpeed cfg dt ⟨0, 0, st⟩ sm = 0 := by
    simp [motoNormalizedSpeed, hmv]
  constructor
  · have hh : (carUpdate jsSin jsCos cfg dt ⟨0, 0, st⟩ sc).heading =
        sc.heading + carEffectiveSteer cfg dt ⟨0, 0, st⟩ sc * (28 / 10) *
          cfg.steeringSensitivity * min (carVelClamped cfg dt ⟨0, 0, st⟩ sc) 20 * dt := rfl
    rw [hh, hvc]
    norm_num [min_def]
  · have hh : (motoUpdate jsSin jsCos cfg dt ⟨0, 0, st⟩ sm).heading =
        sm.heading + motoEffectiveSteer cfg dt ⟨0, 0, st⟩ sm *
          (5 / 2 - motoNormalizedSpeed cfg dt ⟨0, 0, st⟩ sm * (9 / 5)) *
          cfg.steeringSensitivity * max (motoVelClamped cfg dt ⟨0, 0, st⟩ sm) 2 * dt := rfl
    have hes : motoEffectiveSteer cfg dt ⟨0, 0, st⟩ sm =
        st * (3 / 2 * sm.tractionModifier) := by
      simp [motoEffectiveSteer, hns]
    have hdelta : (motoUpdate jsSin jsCos cfg dt ⟨0, 0, st⟩ sm).heading - sm.heading =
        15 / 2 * st * sm.tractionModifier * cfg.steeringSensitivity * dt := by
      rw [hh, hes, hns, hmv, max_eq_right (by norm_num : (0 : ℚ) ≤ 2)]
      ring
    have hne : (15 / 2 : ℚ) * st * sm.tractionModifier * cfg.steeringSensitivity * dt ≠ 0 :=
      mul_ne_zero (mul_ne_zero (mul_ne_zero (mul_ne_zero (by norm_num) hst) htm.ne')
        hsens.ne') hdt.ne'
    intro heq
    rw [heq, sub_self] at hdelta
    exact hne hdelta.symm

/-- C10 witness: the asymmetry instantiated at the default car config,
`dt = 1/60`, steer 1, from the constructed (at-rest) states. -/
theorem zero_speed_turn_asymmetry_witness :
    (carUpdate (fun _ => 0) (fun _ => 1) defaultCarConfig (1 / 60) ⟨0, 0, 1⟩
        carInitState).heading = carInitState.heading ∧
    (motoUpdate (fun _ => 0) (fun _ => 1) defaultCarConfig (1 / 60) ⟨0, 0, 1⟩
        motoInitState).heading ≠ motoInitState.heading :=
  zero_speed_turn_asymmetry (fun _ => 0) (fun _ => 1) defaultCarConfig (1 / 60) 1
    carInitState motoInitState (by norm_num) (by norm_num [defaultCarConfig])
    (by norm_num [defaultCarConfig]) (by norm_num) (by norm_num [motoInitState])
    (by norm_num [carInitState]) (by norm_num [motoInitState])

/-- C5 counterexample: at the default-constructed rest state with zero
inputs and default car parameters, one frame already changes the state:
`verticalVelocity` moves from 0 to 2/75, because the procedural ground
height at the origin is `sin(0)*0.02 + cos(0)*0.02 = 0.02 ≠ 0` and the
suspension spring reacts to it.  The trig arguments evaluated here are
all 0, where `fun _ => 0` and `fun _ => 1` agree with sine and cosine. -/
theorem rest_state_not_fixed_point_at_origin :
    (carUpdate (fun _ => 0) (fun _ => 1) defaultCarConfig (1 / 60) ⟨0, 0, 0⟩
        carInitState).verticalVelocity = 2 / 75 ∧
    carInitState.verticalVelocity = 0 := by
  constructor
  · norm_num [carUpdate, carVelClamped, carVelAfterDrag, carNetAccel, carNormalizedSpeed,
      carEffectiveSteer, carSteerLimit, carTargetRoll, min_def, carInitState, defaultCarConfig]
  · rfl

/-- C5 amended: a rest state (zero inputs, zero velocity, zero attitude,
zero vertical velocity) is a fixed point of `update` — for any number of
frames — exactly when its suspension offset already equals the local
procedural ground height and `position.y` sits at ride height plus that
offset; the default zeroed state does not satisfy this (counterexample),
so only velocity, heading, planar position and attitude rest there. -/
theorem rest_fixed_point_at_ground_equilibrium :
    ∀ (jsSin jsCos : ℚ → ℚ) (cfg : PhysicsConfig) (dt : ℚ)
      (sc : CarState) (sm : MotoState) (n : ℕ),
      0 < cfg.maxSpeed →
      sc.velocity = 0 → sc.bodyRoll = 0 → sc.bodyPitch = 0 → sc.verticalVelocity = 0 →
      sc.verticalOffset =
        jsSin (sc.posX * (1 / 2)) * (2 / 100) + jsCos (sc.posZ * (1 / 2)) * (2 / 100) →
      sc.posY = 3 / 10 + sc.verticalOffset →
      sm.velocity = 0 → sm.leanAngle = 0 → sm.verticalVelocity = 0 →
      sm.verticalOffset =
        jsSin (sm.posX * (1 / 2)) * (5 / 100) + jsCos (sm.posZ * (1 / 2)) * (5 / 100) →
      sm.posY = 1 / 2 + sm.verticalOffset →
      (carUpdate jsSin jsCos cfg dt ⟨0, 0, 0⟩)^[n] sc = sc ∧
      (motoUpdate jsSin jsCos cfg dt ⟨0, 0, 0⟩)^[n] sm = sm := by
  intro jsSin jsCos cfg dt sc sm n hmax hv hbr hbp hvv hvo hpy hvm hlm hvvm hvom hpym
  have hvc := carVelClamped_at_rest cfg dt 0 sc hmax hv
  have hmvc := motoVelClamped_at_rest cfg dt 0 sm hmax hvm
  have hstep : carUpdate jsSin jsCos cfg dt ⟨0, 0, 0⟩ sc = sc := by
    have hes : carEffectiveSteer cfg dt ⟨0, 0, 0⟩ sc = 0 := by
      simp [carEffectiveSteer]
    have hna : carNetAccel cfg ⟨0, 0, 0⟩ sc = 0 := by
      simp [carNetAccel, hv]
    have hH : (carUpdate jsSin jsCos cfg dt ⟨0, 0, 0⟩ sc).heading = sc.heading := by
      have : (carUpdate jsSin jsCos cfg dt ⟨0, 0, 0⟩ sc).heading =
          sc.heading + carEffectiveSteer cfg dt ⟨0, 0, 0⟩ sc * (28 / 10) *
            cfg.steeringSensitivity * min (carVelClamped cfg dt ⟨0, 0, 0⟩ sc) 20 * dt := rfl
      rw [this, hes]
      ring
    have hX : (carUpdate jsSin jsCos cfg dt ⟨0, 0, 0⟩ sc).posX = sc.posX := by
      have : (carUpdate jsSin jsCos cfg dt ⟨0, 0, 0⟩ sc).posX =
          sc.posX + jsSin ((carUpdate jsSin jsCos cfg dt ⟨0, 0, 0⟩ sc).heading) *
            carVelClamped cfg dt ⟨0, 0, 0⟩ sc * dt := rfl
      rw [this, hvc]
      ring
    have hZ : (carUpdate jsSin jsCos cfg dt ⟨0, 0, 0⟩ sc).posZ = sc.posZ := by
      have : (carUpdate jsSin jsCos cfg dt ⟨0, 0, 0⟩ sc).posZ =
          sc.posZ + jsCos ((carUpdate jsSin jsCos cfg dt ⟨0, 0, 0⟩ sc).heading) *
            carVelClamped cfg dt ⟨0, 0, 0⟩ sc * dt := rfl
      rw [this, hvc]
      ring
    have hVV : (carUpdate jsSin jsCos cfg dt ⟨0, 0, 0⟩ sc).verticalVelocity = 0 := by
      have : (carUpdate jsSin jsCos cfg dt ⟨0, 0, 0⟩ sc).verticalVelocity =
          sc.verticalVelocity +
            ((jsSin ((carUpdate jsSin jsCos cfg dt ⟨0, 0, 0⟩ sc).posX * (1 / 2)) * (2 / 100) +
              jsCos ((carUpdate jsSin jsCos cfg dt ⟨0, 0, 0⟩ sc).posZ * (1 / 2)) * (2 / 100) -
              sc.verticalOffset) * cfg.suspensionStiffness +
              -sc.verticalVelocity * cfg.suspensionDamping) * dt := rfl
      rw [this, hX, hZ, hvo, hvv]
      ring
    have hVO : (carUpdate jsSin jsCos cfg dt ⟨0, 0, 0⟩ sc).verticalOffset =
        sc.verticalOffset := by
      have : (carUpdate jsSin jsCos cfg dt ⟨0, 0, 0⟩ sc).verticalOffset =
          sc.verticalOffset +
            (carUpdate jsSin jsCos cfg dt ⟨0, 0, 0⟩ sc).verticalVelocity * dt := rfl
      rw [this, hVV]
      ring
    have hY : (carUpdate jsSin jsCos cfg dt ⟨0, 0, 0⟩ sc).posY = sc.posY := by
      have : (carUpdate jsSin jsCos cfg dt ⟨0, 0, 0⟩ sc).posY =
          3 / 10 + (carUpdate jsSin jsCos cfg dt ⟨0, 0, 0⟩ sc).verticalOffset := rfl
      rw [this, hVO, hpy]
    have hV : (carUpdate jsSin jsCos cfg dt ⟨0, 0, 0⟩ sc).velocity = sc.velocity := by
      have : (carUpdate jsSin jsCos cfg dt ⟨0, 0, 0⟩ sc).velocity =
          carVelClamped cfg dt ⟨0, 0, 0⟩ sc := rfl
      rw [this, hvc, hv]
    have hR : (carUpdate jsSin jsCos cfg dt ⟨0, 0, 0⟩ sc).bodyRoll = sc.bodyRoll := by
      have : (carUpdate jsSin jsCos cfg dt ⟨0, 0, 0⟩ sc).bodyRoll =
          sc.bodyRoll + (carTargetRoll (carEffectiveSteer cfg dt ⟨0, 0, 0⟩ sc)
            (carNormalizedSpeed cfg dt ⟨0, 0, 0⟩ sc) cfg.rollFactor - sc.bodyRoll) *
            cfg.angularDamping * dt := rfl
      rw [this, hes, hbr]
      simp [carTargetRoll]
    have hP : (carUpdate jsSin jsCos cfg dt ⟨0, 0, 0⟩ sc).bodyPitch = sc.bodyPitch := by
      have : (carUpdate jsSin jsCos cfg dt ⟨0, 0, 0⟩ sc).bodyPitch =
          sc.bodyPitch + (carNetAccel cfg ⟨0, 0, 0⟩ sc / cfg.acceleration * cfg.pitchFactor -
            sc.bodyPitch) * cfg.angularDamping * dt := rfl
      rw [this, hna, hbp]
      simp
    have hT : (carUpdate jsSin jsCos cfg dt ⟨0, 0, 0⟩ sc).tractionModifier =
        sc.tractionModifier := rfl
    exact CarState.ext hX hY hZ hV hH hR hP hVO (hVV.trans hvv.symm) hT
  have hstepm : motoUpdate jsSin jsCos cfg dt ⟨0, 0, 0⟩ sm = sm := by
    have hes : motoEffectiveSteer cfg dt ⟨0, 0, 0⟩ sm = 0 := by
      simp [motoEffectiveSteer]
    have hH : (motoUpdate jsSin jsCos cfg dt ⟨0, 0, 0⟩ sm).heading = sm.heading := by
      have : (motoUpdate jsSin jsCos cfg dt ⟨0, 0, 0⟩ sm).heading =
          sm.heading + motoEffectiveSteer cfg dt ⟨0, 0, 0⟩ sm *
            (5 / 2 - motoNormalizedSpeed cfg dt ⟨0, 0, 0⟩ sm * (9 / 5)) *
            cfg.steeringSensitivity * max (motoVelClamped cfg dt ⟨0, 0, 0⟩ sm) 2 * dt := rfl
      rw [this, hes]
      ring
    have hX : (motoUpdate jsSin jsCos cfg dt ⟨0, 0, 0⟩ sm).posX = sm.posX := by
      have : (motoUpdate jsSin jsCos cfg dt ⟨0, 0, 0⟩ sm).posX =
          sm.posX + jsSin ((motoUpdate jsSin jsCos cfg dt ⟨0, 0, 0⟩ sm).heading) *
            motoVelClamped cfg dt ⟨0, 0, 0⟩ sm * dt := rfl
      rw [this, hmvc]
      ring
    have hZ : (motoUpdate jsSin jsCos cfg dt ⟨0, 0, 0⟩ sm).posZ = sm.posZ := by
      have : (motoUpdate jsSin jsCos cfg dt ⟨0, 0, 0⟩ sm).posZ =
          sm.posZ + jsCos ((motoUpdate jsSin jsCos cfg dt ⟨0, 0, 0⟩ sm).heading) *
            motoVelClamped cfg dt ⟨0, 0, 0⟩ sm * dt := rfl
      rw [this, hmvc]
      ring
    have hVV : (motoUpdate jsSin jsCos cfg dt ⟨0, 0, 0⟩ sm).verticalVelocity = 0 := by
      have : (motoUpdate jsSin jsCos cfg dt ⟨0, 0, 0⟩ sm).verticalVelocity =
          sm.verticalVelocity +
            ((jsSin ((motoUpdate jsSin jsCos cfg dt ⟨0, 0, 0⟩ sm).posX * (1 / 2)) * (5 / 100) +
              jsCos ((motoUpdate jsSin jsCos cfg dt ⟨0, 0, 0⟩ sm).posZ * (1 / 2)) * (5 / 100) -
              sm.verticalOffset) * cfg.suspensionStiffness +
              -sm.verticalVelocity * cfg.suspensionDamping) * dt := rfl
      rw [this, hX, hZ, hvom, hvvm]
      ring
    have hVO : (motoUpdate jsSin jsCos cfg dt ⟨0, 0, 0⟩ sm).verticalOffset =
        sm.verticalOffset := by
      have : (motoUpdate jsSin jsCos cfg dt ⟨0, 0, 0⟩ sm).verticalOffset =
          sm.verticalOffset +
            (motoUpdate jsSin jsCos cfg dt ⟨0, 0, 0⟩ sm).verticalVelocity * dt := rfl
      rw [this, hVV]
      ring
    have hY : (motoUpdate jsSin jsCos cfg dt ⟨0, 0, 0⟩ sm).posY = sm.posY := by
      have : (motoUpdate jsSin jsCos cfg dt ⟨0, 0, 0⟩ sm).posY =
          1 / 2 + (motoUpdate jsSin jsCos cfg dt ⟨0, 0, 0⟩ sm).verticalOffset := rfl
      rw [this, hVO, hpym]
    have hV : (motoUpdate jsSin jsCos cfg dt ⟨0, 0, 0⟩ sm).velocity = sm.velocity := by
      have : (motoUpdate jsSin jsCos cfg dt ⟨0, 0, 0⟩ sm).velocity =
          motoVelClamped cfg dt ⟨0, 0, 0⟩ sm := rfl
      rw [this, hmvc, hvm]
    have hL : (motoUpdate jsSin jsCos cfg dt ⟨0, 0, 0⟩ sm).leanAngle = sm.leanAngle := by
      have : (motoUpdate jsSin jsCos cfg dt ⟨0, 0, 0⟩ sm).leanAngle =
          sm.leanAngle + (motoLeanTarget (motoEffectiveSteer cfg dt ⟨0, 0, 0⟩ sm)
            (motoNormalizedSpeed cfg dt ⟨0, 0, 0⟩ sm) cfg.leanFactor - sm.leanAngle) *
            (cfg.angularDamping * sm.stabilityModifier) * dt := rfl
      rw [this, hes, hlm]
      simp [motoLeanTarget]
    have hT : (motoUpdate jsSin jsCos cfg dt ⟨0, 0, 0⟩ sm).tractionModifier =
        sm.tractionModifier := rfl
    have hS : (motoUpdate jsSin jsCos cfg dt ⟨0, 0, 0⟩ sm).stabilityModifier =
        sm.stabilityModifier := rfl
    exact MotoState.ext hX hY hZ hV hH hL hVO (hVV.trans hvvm.symm) hT hS
  exact ⟨Function.iterate_fixed hstep n, Function.iterate_fixed hstepm n⟩

/-- C5 witness: the rest fixed point applied for 2 frames at the default
car config from the constructed states, whose suspension offset (0)
matches the ground height computed by the trig oracles `fun _ => 0`. -/
theorem rest_fixed_point_at_ground_equilibrium_witness :
    (carUpdate (fun _ => 0) (fun _ => 0) defaultCarConfig (1 / 60) ⟨0, 0, 0⟩)^[2]
        carInitState = carInitState ∧
    (motoUpdate (fun _ => 0) (fun _ => 0) defaultCarConfig (1 / 60) ⟨0, 0, 0⟩)^[2]
        motoInitState = motoInitState :=
  rest_fixed_point_at_ground_equilibrium (fun _ => 0) (fun _ => 0) defaultCarConfig (1 / 60)
    carInitState motoInitState 2 (by norm_num [defaultCarConfig]) rfl rfl rfl rfl
    (by norm_num [carInitState]) (by norm_num [carInitState]) rfl rfl rfl
    (by norm_num [motoInitState]) (by norm_num [motoInitState])

/-- With steer = 0 and a drag-stage velocity already inside
`[0, maxSpeed]`, the first car variant's scrub and clamps are no-ops. -/
theorem carVelClamped_of_steer_zero (cfg : PhysicsConfig) (dt t b : ℚ) (s : CarState)
    (h1 : 0 ≤ carVelAfterDrag cfg dt ⟨t, b, 0⟩ s)
    (h2 : carVelAfterDrag cfg dt ⟨t, b, 0⟩ s ≤ cfg.maxSpeed) :
    carVelClamped cfg dt ⟨t, b, 0⟩ s = carVelAfterDrag cfg dt ⟨t, b, 0⟩ s := by
  simp only [carVelClamped]
  norm_num
  rw [if_neg (not_lt.mpr h1), if_neg (not_lt.mpr h2)]

/-- One full-throttle velocity step of the first car variant at the
default config: while the velocity is below the drag equilibrium (drag at
the post-acceleration speed not exceeding the net acceleration 50), the
step does not decrease velocity and remains below the equilibrium. -/
theorem carVel_full_throttle_step (dt : ℚ) (s : CarState)
    (hdt : 0 < dt) (hdt2 : dt ≤ 1 / 20) (htm : s.tractionModifier = 1)
    (h0 : 0 ≤ s.velocity)
    (hP : 3 / 1000 * (s.velocity + 50 * dt) ^ 2 ≤ 50) :
    s.velocity ≤ carVelClamped defaultCarConfig dt ⟨1, 0, 0⟩ s ∧
    0 ≤ carVelClamped defaultCarConfig dt ⟨1, 0, 0⟩ s ∧
    3 / 1000 * (carVelClamped defaultCarConfig dt ⟨1, 0, 0⟩ s + 50 * dt) ^ 2 ≤ 50 := by
  have hdtsq : dt ^ 2 ≤ 1 / 400 := by nlinarith [mul_le_mul hdt2 hdt2 hdt.le (by norm_num)]
  rcases eq_or_lt_of_le h0 with hzero | hpos
  · -- velocity exactly 0: engine braking is not applied, net accel is 55
    have hv : s.velocity = 0 := hzero.symm
    have hna : carNetAccel defaultCarConfig ⟨1, 0, 0⟩ s = 55 := by
      norm_num [carNetAccel, defaultCarConfig, htm, hv]
    have hvd : carVelAfterDrag defaultCarConfig dt ⟨1, 0, 0⟩ s =
        55 * dt - 3 / 1000 * (55 * dt) ^ 2 * dt := by
      simp only [carVelAfterDrag, hna, hv]
      ring
    have h907 : 9075 / 1000 * dt ^ 2 ≤ 55 := by nlinarith
    have hvd0 : 0 ≤ carVelAfterDrag defaultCarConfig dt ⟨1, 0, 0⟩ s := by
      rw [hvd]
      nlinarith [mul_nonneg hdt.le (sub_nonneg.2 h907)]
    have hvd160 : carVelAfterDrag defaultCarConfig dt ⟨1, 0, 0⟩ s ≤
        defaultCarConfig.maxSpeed := by
      rw [hvd]
      have hpos3 : 0 ≤ 3 / 1000 * (55 * dt) ^ 2 * dt :=
        mul_nonneg (mul_nonneg (by norm_num) (sq_nonneg _)) hdt.le
      have : (55 : ℚ) * dt ≤ 11 / 4 := by linarith
      simp only [defaultCarConfig]
      linarith
    have hclamp := carVelClamped_of_steer_zero defaultCarConfig dt 1 0 s hvd0 hvd160
    rw [hclamp, hvd, hv]
    have hx0 : 0 ≤ 55 * dt - 3 / 1000 * (55 * dt) ^ 2 * dt + 50 * dt := by
      have := hvd0
      rw [hvd] at this
      linarith
    have hx214 : 55 * dt - 3 / 1000 * (55 * dt) ^ 2 * dt + 50 * dt ≤ 21 / 4 := by
      have hpos3 : 0 ≤ 3 / 1000 * (55 * dt) ^ 2 * dt :=
        mul_nonneg (mul_nonneg (by norm_num) (sq_nonneg _)) hdt.le
      linarith
    refine ⟨by nlinarith [mul_nonneg hdt.le (sub_nonneg.2 h907)], by nlinarith [mul_nonneg hdt.le (sub_nonneg.2 h907)], ?_⟩
    nlinarith [mul_le_mul hx214 hx214 hx0 (by norm_num : (0 : ℚ) ≤ 21 / 4)]
  · -- positive velocity: engine braking applies, net accel is 50
    have hna : carNetAccel defaultCarConfig ⟨1, 0, 0⟩ s = 50 := by
      norm_num [carNetAccel, defaultCarConfig, htm, hpos]
    obtain ⟨w, hw⟩ : ∃ w : ℚ, w = s.velocity + 50 * dt := ⟨_, rfl⟩
    have hPw : 3 / 1000 * w ^ 2 ≤ 50 := by rw [hw]; exact hP
    have hvd : carVelAfterDrag defaultCarConfig dt ⟨1, 0, 0⟩ s =
        w - 3 / 1000 * w ^ 2 * dt := by
      simp only [carVelAfterDrag, hna, hw]
      ring
    have hw0 : 0 < w := by rw [hw]; nlinarith
    have hw130 : w ≤ 130 := by nlinarith [sq_nonneg (w - 130)]
    have hvd0 : 0 ≤ carVelAfterDrag defaultCarConfig dt ⟨1, 0, 0⟩ s := by
      rw [hvd]
      nlinarith [mul_nonneg (mul_nonneg (sub_nonneg.2 hw130) hw0.le) hdt.le,
        mul_nonneg hw0.le (sub_nonneg.2 hdt2)]
    have hvd160 : carVelAfterDrag defaultCarConfig dt ⟨1, 0, 0⟩ s ≤
        defaultCarConfig.maxSpeed := by
      rw [hvd]
      have hpos3 : 0 ≤ 3 / 1000 * w ^ 2 * dt :=
        mul_nonneg (mul_nonneg (by norm_num) (sq_nonneg _)) hdt.le
      simp only [defaultCarConfig]
      linarith
    have hclamp := carVelClamped_of_steer_zero defaultCarConfig dt 1 0 s hvd0 hvd160
    rw [hclamp, hvd]
    have hstep : s.velocity ≤ w - 3 / 1000 * w ^ 2 * dt := by
      have hd50 : 0 ≤ dt * (50 - 3 / 1000 * w ^ 2) := mul_nonneg hdt.le (by linarith)
      linarith [hw, hd50]
    refine ⟨hstep, by rw [hvd] at hvd0; exact hvd0, ?_⟩
    have h2w : 2 * w * dt ≤ 13 := by
      linarith [mul_nonneg (sub_nonneg.2 hw130) hdt.le]
    have ha50 : 50 - 3 / 1000 * w ^ 2 ≤ 50 := by linarith [sq_nonneg w]
    have hadt : (50 - 3 / 1000 * w ^ 2) * dt ^ 2 ≤ 1 / 8 := by
      have := mul_le_mul ha50 hdtsq (sq_nonneg dt) (by norm_num : (0 : ℚ) ≤ 50)
      linarith
    have hkey : 0 ≤ (50 - 3 / 1000 * w ^ 2) *
        (1 - 3 / 1000 * (2 * w * dt + (50 - 3 / 1000 * w ^ 2) * dt ^ 2)) :=
      mul_nonneg (by linarith) (by linarith)
    have harg : w - 3 / 1000 * w ^ 2 * dt + 50 * dt =
        w + (50 - 3 / 1000 * w ^ 2) * dt := by ring
    rw [harg]
    linarith [hkey]

/-- A velocity below the full-throttle drag equilibrium is at most 130
(hence within the default `maxSpeed` of 160). -/
theorem carVel_equilibrium_le_130 (dt v : ℚ) (hdt : 0 < dt) (h0 : 0 ≤ v)
    (hP : 3 / 1000 * (v + 50 * dt) ^ 2 ≤ 50) : v ≤ 130 := by
  by_contra hc
  push_neg at hc
  nlinarith [mul_nonneg (show (0 : ℚ) ≤ v + 50 * dt - 130 by linarith)
    (show (0 : ℚ) ≤ v + 50 * dt + 130 by linarith)]

/-- C6: with throttle 1, brake 0, steer 0 at the default car parameters
and any fixed dt in the caller-clamped range (0, 0.05], the velocity
sequence from the initial state is non-decreasing, stays below the drag
equilibrium (drag at the post-acceleration speed never exceeds the net
acceleration 50) — a fixed-point bound — and never exceeds `maxSpeed`. -/
theorem full_throttle_velocity_monotone :
    ∀ (jsSin jsCos : ℚ → ℚ) (dt : ℚ) (n : ℕ),
      0 < dt → dt ≤ 1 / 20 →
      ((carUpdate jsSin jsCos defaultCarConfig dt ⟨1, 0, 0⟩)^[n] carInitState).velocity ≤
        ((carUpdate jsSin jsCos defaultCarConfig dt ⟨1, 0, 0⟩)^[n + 1] carInitState).velocity ∧
      3 / 1000 *
        (((carUpdate jsSin jsCos defaultCarConfig dt ⟨1, 0, 0⟩)^[n] carInitState).velocity +
          50 * dt) ^ 2 ≤ 50 ∧
      ((carUpdate jsSin jsCos defaultCarConfig dt ⟨1, 0, 0⟩)^[n] carInitState).velocity ≤
        defaultCarConfig.maxSpeed := by
  intro jsSin jsCos dt n hdt hdt2
  set f := carUpdate jsSin jsCos defaultCarConfig dt ⟨1, 0, 0⟩ with hf
  have hproj : ∀ s : CarState, (f s).velocity = carVelClamped defaultCarConfig dt ⟨1, 0, 0⟩ s :=
    fun _ => rfl
  have htmproj : ∀ s : CarState, (f s).tractionModifier = s.tractionModifier := fun _ => rfl
  have key : ∀ m : ℕ, (f^[m] carInitState).tractionModifier = 1 ∧
      0 ≤ (f^[m] carInitState).velocity ∧
      3 / 1000 * ((f^[m] carInitState).velocity + 50 * dt) ^ 2 ≤ 50 := by
    intro m
    induction m with
    | zero =>
      refine ⟨rfl, le_refl _, ?_⟩
      show 3 / 1000 * ((0 : ℚ) + 50 * dt) ^ 2 ≤ 50
      nlinarith [mul_le_mul hdt2 hdt2 hdt.le (by norm_num : (0 : ℚ) ≤ 1 / 20)]
    | succ k ih =>
      obtain ⟨ihtm, ih0, ihP⟩ := ih
      have hs := carVel_full_throttle_step dt (f^[k] carInitState) hdt hdt2 ihtm ih0 ihP
      rw [Function.iterate_succ_apply']
      exact ⟨(htmproj _).trans ihtm, by rw [hproj]; exact hs.2.1, by rw [hproj]; exact hs.2.2⟩
  obtain ⟨htm, h0, hP⟩ := key n
  have hs := carVel_full_throttle_step dt (f^[n] carInitState) hdt hdt2 htm h0 hP
  refine ⟨?_, hP, ?_⟩
  · rw [Function.iterate_succ_apply', hproj]
    exact hs.1
  · have := carVel_equilibrium_le_130 dt _ hdt h0 hP
    simp only [defaultCarConfig]
    linarith

/-- C6 witness: the monotone step, equilibrium bound and speed cap at
`dt = 1/60`, frame 1. -/
theorem full_throttle_velocity_monotone_witness :
    ((carUpdate (fun _ => 0) (fun _ => 0) defaultCarConfig (1 / 60) ⟨1, 0, 0⟩)^[1]
        carInitState).velocity ≤
      ((carUpdate (fun _ => 0) (fun _ => 0) defaultCarConfig (1 / 60) ⟨1, 0, 0⟩)^[2]
        carInitState).velocity ∧
    3 / 1000 *
      (((carUpdate (fun _ => 0) (fun _ => 0) defaultCarConfig (1 / 60) ⟨1, 0, 0⟩)^[1]
        carInitState).velocity + 50 * (1 / 60)) ^ 2 ≤ 50 ∧
    ((carUpdate (fun _ => 0) (fun _ => 0) defaultCarConfig (1 / 60) ⟨1, 0, 0⟩)^[1]
        carInitState).velocity ≤ defaultCarConfig.maxSpeed :=
  full_throttle_velocity_monotone (fun _ => 0) (fun _ => 0) (1 / 60) 1
    (by norm_num) (by norm_num)

/-- C8 amended: the second car variant's telemetry derives gear from the
fixed table {0,40,80,130,190,260} applied to km/h, equal to the number of
thresholds strictly exceeded (minimum 1), for every velocity; the first
variant instead uses `floor(velocity / 18) + 1`, which disagrees. -/
theorem carV2_gear_matches_threshold_table :
    ∀ (inputs : Inputs) (extra : CarExtra) (s : CarState),
      (carV2GetTelemetry inputs extra s).1.gear = specGearFromTable (s.velocity * (36 / 10)) :=
  fun _ _ s => carV2Gear_eq_count (s.velocity * (36 / 10))
